import Mathlib

/-!
Shallow embedding of `src/coreclr/tools/superpmi/superpmi-shim-collector/icorjitcompiler.cpp`:
the SuperPMI collector shim around the JIT compiler interface (`interceptor_ICJC`).

The shim intercepts `compileMethod`, builds a per-call `MethodContext` (the
Capture Context of the spec), pre-seeds it (process name, method inputs, eager
"forcing" queries, optional global context), invokes the real backend under a
PAL_TRY / PAL_FINALLY fault barrier, and on every exit path either finalizes
and persists the context (unless an alternate path saved the collection early)
and always deletes the context.

Opaque machine values (handles, GUIDs, method descriptors) are modelled as
`Nat`; the out-parameters `nativeEntry` / `nativeSizeOfCode` as
`Option Nat` / `Nat` (a null entry pointer is `none`).  The observable
behaviour of a call is its returned tuple together with an ordered trace of
events (recordings into the context, persistence, deletion, backend calls).
-/

/-- `CORINFO_OS` value, opaque. -/
abbrev CORINFO_OS := Nat

/-- `CorJitResult` return codes.  Only `CORJIT_OK` and `CORJIT_INTERNALERROR`
are distinguished by the shim; every other code is `CORJIT_OTHER n`. -/
inductive CorJitResult where
  | CORJIT_OK : CorJitResult
  | CORJIT_INTERNALERROR : CorJitResult
  | CORJIT_OTHER : Nat → CorJitResult
deriving DecidableEq, Repr

/-- The well-known class ids passed to `getBuiltinClass` at lines 48-54. -/
inductive ClassId where
  | SYSTEM_OBJECT | TYPED_BYREF | TYPE_HANDLE | FIELD_HANDLE
  | METHOD_HANDLE | STRING | RUNTIME_TYPE
deriving DecidableEq, Repr

/-- A query made through the wrapped info provider (`interceptor_ICJI`).
The named constructors are the eager forcing queries issued by
`compileMethod` itself (lines 48-65); `other` stands for an arbitrary query
the backend makes during compilation. -/
inductive InfoQuery where
  | getBuiltinClass : ClassId → InfoQuery
  | getMethodClass : Nat → InfoQuery
  | getClassAttribs : Nat → InfoQuery
  | getClassName : Nat → InfoQuery
  | isValueClass : Nat → InfoQuery
  | asCorInfoType : Nat → InfoQuery
  | getMethodName : Nat → InfoQuery
  | other : Nat → InfoQuery
deriving DecidableEq, Repr

/-- What `mc->cr->recCompileMethod(&nativeEntry, &nativeSizeOfCode, result)`
records (line 21). -/
structure CompileResultRecord where
  nativeEntry : Option Nat
  nativeSizeOfCode : Nat
  result : CorJitResult
deriving DecidableEq, Repr

/-- The Capture Context (`MethodContext`): the per-call aggregate of recorded
facts.  Fields mirror the recordings the shim performs on it. -/
structure MethodContext where
  processName : Option String := none
  methodInputs : Option (Nat × Nat × CORINFO_OS) := none
  globalContext : Option Nat := none
  queryLog : List InfoQuery := []
  compileResultRec : Option CompileResultRecord := none
  allocMemCaptured : Bool := false
  allocGCInfoCaptured : Bool := false
deriving DecidableEq, Repr

/-- `mc->cr->recProcessName(GetCommandLineA())` (line 42). -/
def MethodContext.recProcessName (mc : MethodContext) (s : String) : MethodContext :=
  { mc with processName := some s }

/-- `mc->recCompileMethod(info, flags, currentOs)` (line 44). -/
def MethodContext.recCompileMethod (mc : MethodContext) (info flags : Nat)
    (os : CORINFO_OS) : MethodContext :=
  { mc with methodInputs := some (info, flags, os) }

/-- `mc->recGlobalContext(*g_globalContext)` (line 71). -/
def MethodContext.recGlobalContext (mc : MethodContext) (g : Nat) : MethodContext :=
  { mc with globalContext := some g }

/-- The `interceptor_ICJI` wrapper records each query into the context's log
before forwarding it. -/
def MethodContext.recQuery (mc : MethodContext) (q : InfoQuery) : MethodContext :=
  { mc with queryLog := mc.queryLog ++ [q] }

/-- `mc->cr->recCompileMethod(&nativeEntry, &nativeSizeOfCode, result)` (line 21). -/
def MethodContext.crRecCompileMethod (mc : MethodContext) (entry : Option Nat)
    (size : Nat) (result : CorJitResult) : MethodContext :=
  { mc with compileResultRec := some ⟨entry, size, result⟩ }

/-- `mc->cr->recAllocMemCapture()` (line 25). -/
def MethodContext.recAllocMemCapture (mc : MethodContext) : MethodContext :=
  { mc with allocMemCaptured := true }

/-- `mc->cr->recAllocGCInfoCapture()` (line 26). -/
def MethodContext.recAllocGCInfoCapture (mc : MethodContext) : MethodContext :=
  { mc with allocGCInfoCaptured := true }

/-- An observable event of one shim operation, in program order. -/
inductive Event where
  | evCreateMC : Event
  | evRecProcessName : String → Event
  | evRecMethodInputs : Nat → Nat → CORINFO_OS → Event
  | evQuery : InfoQuery → Event
  | evRecGlobalContext : Nat → Event
  | evBackendInvoked : Option Nat → Nat → Event
  | evEarlySave : MethodContext → Event
  | evCrRecCompileMethod : Option Nat → Nat → CorJitResult → Event
  | evRecAllocMemCapture : Event
  | evRecAllocGCInfoCapture : Event
  | evSaveToFile : MethodContext → Event
  | evDeleteMC : Event
deriving DecidableEq, Repr

/-- The real runtime info provider (`comp`), answering the forcing queries.
Opaque handles are `Nat`. -/
structure ICorJitInfoProvider where
  getMethodClass : Nat → Nat

/-- `CORINFO_METHOD_INFO`: the method descriptor; only its `ftn` field is
used by the shim. -/
structure CORINFO_METHOD_INFO where
  ftn : Nat
deriving DecidableEq, Repr

/-- How the backend's `compileMethod` call terminates: a normal return
producing `(result, nativeEntry, nativeSizeOfCode)`, or an abnormal fault
caught by the PAL_TRY barrier. -/
inductive BackendOutcome where
  | ret : CorJitResult → Option Nat → Nat → BackendOutcome
  | fault : BackendOutcome
deriving DecidableEq, Repr

/-- Behaviour of one backend compile invocation: the queries it issues
through the wrapped info provider, whether some alternate path persisted the
collection early during the call (setting `SavedCollectionEarly`), and how
the call terminates.

Modelled from the spec: the code that sets `SavedCollectionEarly` and
performs the alternate early persist lives in `interceptor_ICJI`, whose
source is not part of this fragment; per the spec, some alternate path may
persist before the fault-barrier's own finalize step runs.
`compileMethod` only reads the flag (line 109). -/
structure BackendCompileBehavior where
  queries : List InfoQuery
  savedEarly : Bool
  outcome : BackendOutcome
deriving DecidableEq, Repr

/-- Process-wide shim state: `currentOs` (written by `setTargetOS`), the
optional `g_globalContext`, and the command line returned by
`GetCommandLineA()`. -/
structure ShimState where
  currentOs : CORINFO_OS
  g_globalContext : Option Nat
  processName : String
deriving DecidableEq, Repr

/-- `interceptor_ICJC::setTargetOS` (lines 13-17): store `os` into the
process-wide `currentOs`, forward unchanged to the backend.  Returns the new
state and the argument forwarded to `original_ICorJitCompiler->setTargetOS`. -/
def setTargetOS (st : ShimState) (os : CORINFO_OS) : ShimState × CORINFO_OS :=
  ({ st with currentOs := os }, os)

/-- `interceptor_ICJC::finalizeAndCommitCollection` (lines 19-30): record the
result and output into the context, take the success-only captures when
`result == CORJIT_OK`, then `mc->saveToFile(hFile)`.  Returns the final
context and the events performed. -/
def finalizeAndCommitCollection (mc : MethodContext) (result : CorJitResult)
    (nativeEntry : Option Nat) (nativeSizeOfCode : Nat) :
    MethodContext × List Event :=
  let mc1 := mc.crRecCompileMethod nativeEntry nativeSizeOfCode result
  let step2 :=
    if result = CorJitResult.CORJIT_OK then
      (mc1.recAllocMemCapture.recAllocGCInfoCapture,
        [Event.evRecAllocMemCapture, Event.evRecAllocGCInfoCapture])
    else (mc1, [])
  (step2.1,
    Event.evCrRecCompileMethod nativeEntry nativeSizeOfCode result ::
      step2.2 ++ [Event.evSaveToFile step2.1])

/-- The eager forcing queries of `compileMethod` (lines 48-65), in source
order: seven `getBuiltinClass` calls, then the `fatMC` block
(`getMethodClass`, `getClassAttribs`, `getClassName`, `isValueClass`,
`asCorInfoType` on the method's class, and `getMethodName`). -/
def forcedQueries (comp : ICorJitInfoProvider) (info : CORINFO_METHOD_INFO) :
    List InfoQuery :=
  let ourClass := comp.getMethodClass info.ftn
  [InfoQuery.getBuiltinClass ClassId.SYSTEM_OBJECT,
   InfoQuery.getBuiltinClass ClassId.TYPED_BYREF,
   InfoQuery.getBuiltinClass ClassId.TYPE_HANDLE,
   InfoQuery.getBuiltinClass ClassId.FIELD_HANDLE,
   InfoQuery.getBuiltinClass ClassId.METHOD_HANDLE,
   InfoQuery.getBuiltinClass ClassId.STRING,
   InfoQuery.getBuiltinClass ClassId.RUNTIME_TYPE,
   InfoQuery.getMethodClass info.ftn,
   InfoQuery.getClassAttribs ourClass,
   InfoQuery.getClassName ourClass,
   InfoQuery.isValueClass ourClass,
   InfoQuery.asCorInfoType ourClass,
   InfoQuery.getMethodName info.ftn]

/-- The events of the global-context recording step (lines 69-72). -/
def globalContextEvents (g : Option Nat) : List Event :=
  match g with
  | some g0 => [Event.evRecGlobalContext g0]
  | none => []

/-- Result of one intercepted compile call: the tuple handed back to the
caller plus the ordered event trace of the call. -/
structure CompileCallResult where
  result : CorJitResult
  nativeEntry : Option Nat
  nativeSizeOfCode : Nat
  events : List Event
deriving DecidableEq, Repr

/-- `interceptor_ICJC::compileMethod` (lines 32-122).

Mirrors the source step by step:
* `new MethodContext()` and the `interceptor_ICJI` wrapper (lines 39-40);
* `recProcessName` (42), `recCompileMethod(info, flags, currentOs)` (44);
* the eager forcing queries through the wrapper (48-65);
* `recGlobalContext` if `g_globalContext != nullptr` (69-72);
* `compileParams.result = CORJIT_INTERNALERROR` (91) and the output-slot
  initialisation `*nativeEntry = nullptr; *nativeSizeOfCode = 0` (93-94);
* the backend call under PAL_TRY (98-106): on a normal return the result and
  the output slots hold the backend's values, on a fault they keep their
  initialised values; during the call the backend's queries are recorded and
  an alternate path may persist the collection early (`SavedCollectionEarly`);
* PAL_FINALLY (107-115): unless `SavedCollectionEarly()`, run
  `finalizeAndCommitCollection` on the current slot values; then `delete mc`;
* return `compileParams.result` (121). -/
def compileMethod (st : ShimState) (comp : ICorJitInfoProvider)
    (info : CORINFO_METHOD_INFO) (flags : Nat)
    (behavior : BackendCompileBehavior) : CompileCallResult :=
  let mc0 : MethodContext := {}
  let mc1 := mc0.recProcessName st.processName
  let mc2 := mc1.recCompileMethod info.ftn flags st.currentOs
  let fq := forcedQueries comp info
  let mc3 := fq.foldl MethodContext.recQuery mc2
  let mc4 :=
    match st.g_globalContext with
    | some g => mc3.recGlobalContext g
    | none => mc3
  let resultInit := CorJitResult.CORJIT_INTERNALERROR
  let entryInit : Option Nat := none
  let sizeInit : Nat := 0
  let mc5 := behavior.queries.foldl MethodContext.recQuery mc4
  let slots :=
    match behavior.outcome with
    | BackendOutcome.ret r e s => (r, e, s)
    | BackendOutcome.fault => (resultInit, entryInit, sizeInit)
  let callEvents :=
    behavior.queries.map Event.evQuery ++
      (if behavior.savedEarly then [Event.evEarlySave mc5] else [])
  let cleanup :=
    if behavior.savedEarly then ([] : List Event)
    else (finalizeAndCommitCollection mc5 slots.1 slots.2.1 slots.2.2).2
  { result := slots.1
    nativeEntry := slots.2.1
    nativeSizeOfCode := slots.2.2
    events :=
      Event.evCreateMC ::
        Event.evRecProcessName st.processName ::
          Event.evRecMethodInputs info.ftn flags st.currentOs ::
            fq.map Event.evQuery ++
              globalContextEvents st.g_globalContext ++
                Event.evBackendInvoked entryInit sizeInit ::
                  callEvents ++ cleanup ++ [Event.evDeleteMC] }

/-- `interceptor_ICJC::ProcessShutdownWork` (lines 124-127): pure forwarding;
returns the argument passed to the backend and the (empty) list of recording
events performed. -/
def ProcessShutdownWork (info : Nat) : Nat × List Event :=
  (info, [])

/-- The backend for the pure pass-through operations. -/
structure Backend where
  versionIdentifier : Nat
  maxIntrinsicSIMDVectorLength : Nat → Nat

/-- `interceptor_ICJC::getVersionIdentifier` (lines 129-132): pure forwarding
of the backend's GUID; no recording events. -/
def getVersionIdentifier (b : Backend) : Nat × List Event :=
  (b.versionIdentifier, [])

/-- `interceptor_ICJC::getMaxIntrinsicSIMDVectorLength` (lines 134-137): pure
forwarding of the backend's answer; no recording events. -/
def getMaxIntrinsicSIMDVectorLength (b : Backend) (cpuCompileFlags : Nat) :
    Nat × List Event :=
  (b.maxIntrinsicSIMDVectorLength cpuCompileFlags, [])

/-! ### Trace observations -/

/-- Whether an event is a persist into the Output Sink: either the fault
barrier's `saveToFile` or the alternate path's early save. -/
def isPersistEvent : Event → Bool
  | Event.evSaveToFile _ => true
  | Event.evEarlySave _ => true
  | _ => false

/-- Whether an event is the fault barrier's own `saveToFile`. -/
def isFinalizeSaveEvent : Event → Bool
  | Event.evSaveToFile _ => true
  | _ => false

/-- Whether an event is the alternate path's early save. -/
def isEarlySaveEvent : Event → Bool
  | Event.evEarlySave _ => true
  | _ => false

/-- Whether an event is `delete mc`. -/
def isDeleteEvent : Event → Bool
  | Event.evDeleteMC => true
  | _ => false

/-- Whether an event is a recording performed by `finalizeAndCommitCollection`
(the result/output recording or a success-only capture). -/
def isFinalizeRecordingEvent : Event → Bool
  | Event.evCrRecCompileMethod _ _ _ => true
  | Event.evRecAllocMemCapture => true
  | Event.evRecAllocGCInfoCapture => true
  | _ => false

/-- Whether an event is an info-provider query recording. -/
def isQueryEvent : Event → Bool
  | Event.evQuery _ => true
  | _ => false

/-- Whether an event is the global-context recording. -/
def isGlobalContextEvent : Event → Bool
  | Event.evRecGlobalContext _ => true
  | _ => false

/-- Whether an event is the backend invocation. -/
def isBackendInvokedEvent : Event → Bool
  | Event.evBackendInvoked _ _ => true
  | _ => false

/-- Count the events satisfying `p`. -/
def countEvents (p : Event → Bool) : List Event → Nat
  | [] => 0
  | e :: rest => (if p e then 1 else 0) + countEvents p rest

/-- The contexts written to the Output Sink by the fault barrier's finalize
step, in order. -/
def persistedRecords : List Event → List MethodContext
  | [] => []
  | Event.evSaveToFile mc :: rest => mc :: persistedRecords rest
  | _ :: rest => persistedRecords rest

/-- The value carried by the first `evBackendInvoked` event: the content of
the output slots at the moment the backend is invoked. -/
def backendInvokedSlots : List Event → Option (Option Nat × Nat)
  | [] => none
  | Event.evBackendInvoked e s :: _ => some (e, s)
  | _ :: rest => backendInvokedSlots rest

/-- The target-platform value carried by the first `evRecMethodInputs`
recording of a trace. -/
def recordedTargetOS : List Event → Option CORINFO_OS
  | [] => none
  | Event.evRecMethodInputs _ _ os :: _ => some os
  | _ :: rest => recordedTargetOS rest

/-- Whether an event is the `new MethodContext()` creation. -/
def isCreateEvent : Event → Bool
  | Event.evCreateMC => true
  | _ => false

/-- The recording order asserted by the spec for `compileMethod`: every
global-context recording happens strictly before every info-provider query
recording (the spec lists the global-context step before the eager query
step).  Stated over the event trace of a call. -/
def globalContextRecordedBeforeQueries (tr : List Event) : Prop :=
  ∀ i : Fin tr.length, ∀ j : Fin tr.length,
    isGlobalContextEvent (tr.get i) = true → isQueryEvent (tr.get j) = true → i < j

/-- The `compileResultRec` field of each context written to the Output Sink
by the fault barrier's finalize step, in order. -/
def persistedCompileResults : List Event → List (Option CompileResultRecord)
  | [] => []
  | Event.evSaveToFile mc :: rest => mc.compileResultRec :: persistedCompileResults rest
  | _ :: rest => persistedCompileResults rest

/-! ### Concrete sample inputs (used by witnesses and counterexamples) -/

/-- A concrete info provider for sample runs. -/
def sampleProvider : ICorJitInfoProvider := ⟨fun h => h + 100⟩

/-- A concrete shim state with a global context present. -/
def sampleState : ShimState := ⟨3, some 7, "superpmi-shim-collector"⟩

/-- A concrete shim state without a global context. -/
def sampleStateNoGC : ShimState := ⟨2, none, "collector"⟩

/-- A concrete method descriptor. -/
def sampleInfo : CORINFO_METHOD_INFO := ⟨42⟩

/-- A backend run that faults after two queries, no early save. -/
def faultBehavior : BackendCompileBehavior :=
  ⟨[InfoQuery.other 1, InfoQuery.other 2], false, BackendOutcome.fault⟩

/-- A backend run during which an alternate path saved the collection early. -/
def earlyBehavior : BackendCompileBehavior :=
  ⟨[InfoQuery.other 5], true, BackendOutcome.ret CorJitResult.CORJIT_OK (some 9) 12⟩

/-- A backend run returning success with entry 77 and size 256. -/
def okBehavior : BackendCompileBehavior :=
  ⟨[], false, BackendOutcome.ret CorJitResult.CORJIT_OK (some 77) 256⟩

/-- A backend run returning an explicit failure code. -/
def failBehavior : BackendCompileBehavior :=
  ⟨[InfoQuery.other 3], false, BackendOutcome.ret (CorJitResult.CORJIT_OTHER 5) none 0⟩

/-! ### Helper lemmas -/

theorem countEvents_append (p : Event → Bool) (l1 l2 : List Event) :
    countEvents p (l1 ++ l2) = countEvents p l1 + countEvents p l2 := by
  induction l1 with
  | nil => simp [countEvents]
  | cons e rest ih => simp [countEvents, ih, Nat.add_assoc]

theorem countEvents_map_query (p : Event → Bool)
    (h : ∀ q, p (Event.evQuery q) = false) (l : List InfoQuery) :
    countEvents p (l.map Event.evQuery) = 0 := by
  induction l with
  | nil => rfl
  | cons q rest ih => simp [countEvents, h, ih]

theorem countEvents_finalize_eq_zero (p : Event → Bool)
    (h1 : ∀ e s r, p (Event.evCrRecCompileMethod e s r) = false)
    (h2 : p Event.evRecAllocMemCapture = false)
    (h3 : p Event.evRecAllocGCInfoCapture = false)
    (h4 : ∀ mc, p (Event.evSaveToFile mc) = false)
    (mc : MethodContext) (r : CorJitResult) (e : Option Nat) (s : Nat) :
    countEvents p (finalizeAndCommitCollection mc r e s).2 = 0 := by
  by_cases hr : r = CorJitResult.CORJIT_OK <;>
    simp [finalizeAndCommitCollection, hr, countEvents, h1, h2, h3, h4]

theorem countEvents_finalize_finSave (mc : MethodContext) (r : CorJitResult)
    (e : Option Nat) (s : Nat) :
    countEvents isFinalizeSaveEvent (finalizeAndCommitCollection mc r e s).2 = 1 := by
  by_cases hr : r = CorJitResult.CORJIT_OK <;>
    simp [finalizeAndCommitCollection, hr, countEvents, isFinalizeSaveEvent]

theorem persistedRecords_append (l1 l2 : List Event) :
    persistedRecords (l1 ++ l2) = persistedRecords l1 ++ persistedRecords l2 := by
  induction l1 with
  | nil => simp [persistedRecords]
  | cons e rest ih => cases e <;> simp [persistedRecords, ih]

theorem persistedRecords_map_query (l : List InfoQuery) :
    persistedRecords (l.map Event.evQuery) = [] := by
  induction l with
  | nil => rfl
  | cons q rest ih => simp [persistedRecords, ih]

theorem persistedRecords_finalize (mc : MethodContext) (r : CorJitResult)
    (e : Option Nat) (s : Nat) :
    persistedRecords (finalizeAndCommitCollection mc r e s).2 =
      [(finalizeAndCommitCollection mc r e s).1] := by
  by_cases hr : r = CorJitResult.CORJIT_OK <;>
    simp [finalizeAndCommitCollection, hr, persistedRecords]

theorem finalize_fst_compileResultRec (mc : MethodContext) (r : CorJitResult)
    (e : Option Nat) (s : Nat) :
    (finalizeAndCommitCollection mc r e s).1.compileResultRec = some ⟨e, s, r⟩ := by
  by_cases hr : r = CorJitResult.CORJIT_OK <;>
    simp [finalizeAndCommitCollection, hr, MethodContext.crRecCompileMethod,
      MethodContext.recAllocMemCapture, MethodContext.recAllocGCInfoCapture]

theorem finalize_fst_methodInputs (mc : MethodContext) (r : CorJitResult)
    (e : Option Nat) (s : Nat) :
    (finalizeAndCommitCollection mc r e s).1.methodInputs = mc.methodInputs := by
  by_cases hr : r = CorJitResult.CORJIT_OK <;>
    simp [finalizeAndCommitCollection, hr, MethodContext.crRecCompileMethod,
      MethodContext.recAllocMemCapture, MethodContext.recAllocGCInfoCapture]

theorem foldl_recQuery_methodInputs (l : List InfoQuery) (mc : MethodContext) :
    (l.foldl MethodContext.recQuery mc).methodInputs = mc.methodInputs := by
  induction l generalizing mc with
  | nil => rfl
  | cons q rest ih => simp [List.foldl, MethodContext.recQuery, ih]

theorem foldl_recQuery_allocMem (l : List InfoQuery) (mc : MethodContext) :
    (l.foldl MethodContext.recQuery mc).allocMemCaptured = mc.allocMemCaptured := by
  induction l generalizing mc with
  | nil => rfl
  | cons q rest ih => simp [List.foldl, MethodContext.recQuery, ih]

theorem foldl_recQuery_allocGCInfo (l : List InfoQuery) (mc : MethodContext) :
    (l.foldl MethodContext.recQuery mc).allocGCInfoCaptured = mc.allocGCInfoCaptured := by
  induction l generalizing mc with
  | nil => rfl
  | cons q rest ih => simp [List.foldl, MethodContext.recQuery, ih]

theorem countEvents_map_query_create (l : List InfoQuery) :
    countEvents isCreateEvent (l.map Event.evQuery) = 0 :=
  countEvents_map_query _ (fun _ => rfl) l

theorem countEvents_map_query_finSave (l : List InfoQuery) :
    countEvents isFinalizeSaveEvent (l.map Event.evQuery) = 0 :=
  countEvents_map_query _ (fun _ => rfl) l

theorem countEvents_map_query_earlySave (l : List InfoQuery) :
    countEvents isEarlySaveEvent (l.map Event.evQuery) = 0 :=
  countEvents_map_query _ (fun _ => rfl) l

theorem countEvents_map_query_delete (l : List InfoQuery) :
    countEvents isDeleteEvent (l.map Event.evQuery) = 0 :=
  countEvents_map_query _ (fun _ => rfl) l

theorem countEvents_map_query_persist (l : List InfoQuery) :
    countEvents isPersistEvent (l.map Event.evQuery) = 0 :=
  countEvents_map_query _ (fun _ => rfl) l

theorem countEvents_map_query_finRec (l : List InfoQuery) :
    countEvents isFinalizeRecordingEvent (l.map Event.evQuery) = 0 :=
  countEvents_map_query _ (fun _ => rfl) l

theorem countEvents_map_query_globalCtx (l : List InfoQuery) :
    countEvents isGlobalContextEvent (l.map Event.evQuery) = 0 :=
  countEvents_map_query _ (fun _ => rfl) l

theorem countEvents_finalize_create (mc : MethodContext) (r : CorJitResult)
    (e : Option Nat) (s : Nat) :
    countEvents isCreateEvent (finalizeAndCommitCollection mc r e s).2 = 0 :=
  countEvents_finalize_eq_zero _ (fun _ _ _ => rfl) rfl rfl (fun _ => rfl) mc r e s

theorem countEvents_finalize_earlySave (mc : MethodContext) (r : CorJitResult)
    (e : Option Nat) (s : Nat) :
    countEvents isEarlySaveEvent (finalizeAndCommitCollection mc r e s).2 = 0 :=
  countEvents_finalize_eq_zero _ (fun _ _ _ => rfl) rfl rfl (fun _ => rfl) mc r e s

theorem countEvents_finalize_delete (mc : MethodContext) (r : CorJitResult)
    (e : Option Nat) (s : Nat) :
    countEvents isDeleteEvent (finalizeAndCommitCollection mc r e s).2 = 0 :=
  countEvents_finalize_eq_zero _ (fun _ _ _ => rfl) rfl rfl (fun _ => rfl) mc r e s

theorem countEvents_finalize_globalCtx (mc : MethodContext) (r : CorJitResult)
    (e : Option Nat) (s : Nat) :
    countEvents isGlobalContextEvent (finalizeAndCommitCollection mc r e s).2 = 0 :=
  countEvents_finalize_eq_zero _ (fun _ _ _ => rfl) rfl rfl (fun _ => rfl) mc r e s

theorem countEvents_finalize_persist (mc : MethodContext) (r : CorJitResult)
    (e : Option Nat) (s : Nat) :
    countEvents isPersistEvent (finalizeAndCommitCollection mc r e s).2 = 1 := by
  by_cases hr : r = CorJitResult.CORJIT_OK <;>
    simp [finalizeAndCommitCollection, hr, countEvents, isPersistEvent]

/-- The core counting facts about one intercepted compile call: the context
is created once; the fault barrier's own persist runs exactly when no early
save happened; the early save happens exactly when the flag was set; the
context is deleted exactly once; and in total exactly one persist reaches
the Output Sink. -/
theorem compileMethod_event_counts (st : ShimState) (comp : ICorJitInfoProvider)
    (info : CORINFO_METHOD_INFO) (flags : Nat) (behavior : BackendCompileBehavior) :
    countEvents isCreateEvent (compileMethod st comp info flags behavior).events = 1 ∧
    countEvents isFinalizeSaveEvent (compileMethod st comp info flags behavior).events
      = (if behavior.savedEarly then 0 else 1) ∧
    countEvents isEarlySaveEvent (compileMethod st comp info flags behavior).events
      = (if behavior.savedEarly then 1 else 0) ∧
    countEvents isDeleteEvent (compileMethod st comp info flags behavior).events = 1 ∧
    countEvents isPersistEvent (compileMethod st comp info flags behavior).events = 1 := by
  rcases behavior with ⟨qs, se, oc⟩
  rcases oc with ⟨r, e, s⟩ | _
  · by_cases hr : r = CorJitResult.CORJIT_OK <;> cases se <;>
      cases hg : st.g_globalContext <;>
        simp [compileMethod, finalizeAndCommitCollection, forcedQueries,
          globalContextEvents, hg, hr, countEvents, countEvents_append,
          countEvents_map_query_create, countEvents_map_query_finSave,
          countEvents_map_query_earlySave, countEvents_map_query_delete,
          countEvents_map_query_persist, countEvents_map_query_globalCtx,
          isCreateEvent, isFinalizeSaveEvent, isEarlySaveEvent, isDeleteEvent,
          isPersistEvent]
  · cases se <;> cases hg : st.g_globalContext <;>
      simp [compileMethod, finalizeAndCommitCollection, forcedQueries,
        globalContextEvents, hg, countEvents, countEvents_append,
        countEvents_map_query_create, countEvents_map_query_finSave,
        countEvents_map_query_earlySave, countEvents_map_query_delete,
        countEvents_map_query_persist, countEvents_map_query_globalCtx,
        isCreateEvent, isFinalizeSaveEvent, isEarlySaveEvent, isDeleteEvent,
        isPersistEvent]

theorem persistedCompileResults_append (l1 l2 : List Event) :
    persistedCompileResults (l1 ++ l2) =
      persistedCompileResults l1 ++ persistedCompileResults l2 := by
  induction l1 with
  | nil => simp [persistedCompileResults]
  | cons e rest ih => cases e <;> simp [persistedCompileResults, ih]

theorem persistedCompileResults_map_query (l : List InfoQuery) :
    persistedCompileResults (l.map Event.evQuery) = [] := by
  induction l with
  | nil => rfl
  | cons q rest ih => simp [persistedCompileResults, ih]

/-- The number of global-context recordings in one compile call: one when
`g_globalContext` is available, none otherwise. -/
theorem compileMethod_globalCtx_count (st : ShimState) (comp : ICorJitInfoProvider)
    (info : CORINFO_METHOD_INFO) (flags : Nat) (behavior : BackendCompileBehavior) :
    countEvents isGlobalContextEvent (compileMethod st comp info flags behavior).events
      = (match st.g_globalContext with | some _ => 1 | none => 0) := by
  rcases behavior with ⟨qs, se, oc⟩
  rcases oc with ⟨r, e, s⟩ | _
  · by_cases hr : r = CorJitResult.CORJIT_OK <;> cases se <;>
      cases hg : st.g_globalContext <;>
        simp [compileMethod, finalizeAndCommitCollection, forcedQueries,
          globalContextEvents, hg, hr, countEvents, countEvents_append,
          countEvents_map_query_globalCtx, isGlobalContextEvent]
  · cases se <;> cases hg : st.g_globalContext <;>
      simp [compileMethod, finalizeAndCommitCollection, forcedQueries,
        globalContextEvents, hg, countEvents, countEvents_append,
        countEvents_map_query_globalCtx, isGlobalContextEvent]

/-! ### Claim theorems -/

/-- C1: For every call to `compileMethod`, on every exit path of the backend
invocation (normal return or abnormal fault), exactly one of
finalize-and-persist or early-save takes effect, and the Capture Context
(`MethodContext`) is created exactly once and destroyed exactly once within
the call, before control returns to the caller of `compileMethod`. -/
theorem C1_finalize_or_early_save_exactly_once (st : ShimState)
    (comp : ICorJitInfoProvider) (info : CORINFO_METHOD_INFO) (flags : Nat)
    (behavior : BackendCompileBehavior) :
    countEvents isCreateEvent (compileMethod st comp info flags behavior).events = 1 ∧
    countEvents isFinalizeSaveEvent (compileMethod st comp info flags behavior).events
      + countEvents isEarlySaveEvent (compileMethod st comp info flags behavior).events
        = 1 ∧
    countEvents isDeleteEvent (compileMethod st comp info flags behavior).events = 1 := by
  obtain ⟨h1, h2, h3, h4, h5⟩ := compileMethod_event_counts st comp info flags behavior
  refine ⟨h1, ?_, h4⟩
  rw [h2, h3]
  cases behavior.savedEarly <;> simp

/-- C2: If the backend's compile call faults instead of returning,
`compileMethod` surfaces the designated internal-error result code (the
value the result slot was initialised to before the backend call) together
with empty output (null entry reference, code size 0) to its own caller. -/
theorem C2_fault_surfaces_internal_error (st : ShimState)
    (comp : ICorJitInfoProvider) (info : CORINFO_METHOD_INFO) (flags : Nat)
    (behavior : BackendCompileBehavior)
    (h : behavior.outcome = BackendOutcome.fault) :
    (compileMethod st comp info flags behavior).result
        = CorJitResult.CORJIT_INTERNALERROR ∧
    (compileMethod st comp info flags behavior).nativeEntry = none ∧
    (compileMethod st comp info flags behavior).nativeSizeOfCode = 0 := by
  simp [compileMethod, h]

theorem C2_fault_surfaces_internal_error_witness :
    (compileMethod sampleState sampleProvider sampleInfo 8 faultBehavior).result
        = CorJitResult.CORJIT_INTERNALERROR ∧
    (compileMethod sampleState sampleProvider sampleInfo 8 faultBehavior).nativeEntry
        = none ∧
    (compileMethod sampleState sampleProvider sampleInfo 8 faultBehavior).nativeSizeOfCode
        = 0 :=
  C2_fault_surfaces_internal_error sampleState sampleProvider sampleInfo 8 faultBehavior rfl

/-- C3: Persistence executes at most once per compile call; when the
already-persisted flag (`SavedCollectionEarly`) was set by an alternate path
before the fault barrier's cleanup runs, that cleanup performs no
`saveToFile` of its own but still destroys the Capture Context. -/
theorem C3_persistence_at_most_once (st : ShimState) (comp : ICorJitInfoProvider)
    (info : CORINFO_METHOD_INFO) (flags : Nat) (behavior : BackendCompileBehavior) :
    countEvents isPersistEvent (compileMethod st comp info flags behavior).events ≤ 1 ∧
    countEvents isFinalizeSaveEvent
      (compileMethod st comp info flags { behavior with savedEarly := true }).events
        = 0 ∧
    countEvents isDeleteEvent
      (compileMethod st comp info flags { behavior with savedEarly := true }).events
        = 1 := by
  obtain ⟨-, -, -, -, h5⟩ := compileMethod_event_counts st comp info flags behavior
  obtain ⟨-, h2, -, h4, -⟩ :=
    compileMethod_event_counts st comp info flags { behavior with savedEarly := true }
  refine ⟨le_of_eq h5, ?_, h4⟩
  simpa using h2

/-- C6: The caller-visible output slots are initialised to empty (null entry
reference, code size 0) before the backend is invoked, so a call on which
the backend faults without writing output still returns well-defined empty
output. -/
theorem C6_output_slots_initialised_empty (st : ShimState)
    (comp : ICorJitInfoProvider) (info : CORINFO_METHOD_INFO) (flags : Nat)
    (behavior : BackendCompileBehavior) :
    backendInvokedSlots (compileMethod st comp info flags behavior).events
        = some (none, 0) ∧
    (compileMethod st comp info flags
        { behavior with outcome := BackendOutcome.fault }).nativeEntry = none ∧
    (compileMethod st comp info flags
        { behavior with outcome := BackendOutcome.fault }).nativeSizeOfCode = 0 := by
  refine ⟨?_, by simp [compileMethod], by simp [compileMethod]⟩
  cases hg : st.g_globalContext <;>
    simp [compileMethod, forcedQueries, globalContextEvents, hg, backendInvokedSlots]

/-- C8: `ProcessShutdownWork`, `getVersionIdentifier` and
`getMaxIntrinsicSIMDVectorLength` forward directly to the backend, produce
results bit-identical to calling the backend directly, and perform zero
recording side effects. -/
theorem C8_pure_pass_through (b : Backend) (info cpuCompileFlags : Nat) :
    ProcessShutdownWork info = (info, []) ∧
    getVersionIdentifier b = (b.versionIdentifier, []) ∧
    getMaxIntrinsicSIMDVectorLength b cpuCompileFlags
        = (b.maxIntrinsicSIMDVectorLength cpuCompileFlags, []) :=
  ⟨rfl, rfl, rfl⟩

/-- C9: `setTargetOS` stores the given platform value in the process-wide
state (changing nothing else), forwards it unchanged to the backend, and
every subsequent `compileMethod` call on that state records the stored value
into its Capture Context as the target-platform input. -/
theorem C9_target_platform_stored_and_recorded (st : ShimState) (os : CORINFO_OS)
    (comp : ICorJitInfoProvider) (info : CORINFO_METHOD_INFO) (flags : Nat)
    (behavior : BackendCompileBehavior) :
    (setTargetOS st os).1 = { st with currentOs := os } ∧
    (setTargetOS st os).2 = os ∧
    recordedTargetOS
      (compileMethod (setTargetOS st os).1 comp info flags behavior).events
        = some os := by
  refine ⟨rfl, rfl, ?_⟩
  simp [compileMethod, setTargetOS, recordedTargetOS]

/-- C10: When the early-save path is taken (`SavedCollectionEarly` set before
the fault barrier's cleanup runs), the cleanup skips the entire finalize
step: no result/output recording, no success-only captures, no Output Sink
write of its own; the context is only destroyed. -/
theorem C10_early_save_skips_entire_finalize (st : ShimState)
    (comp : ICorJitInfoProvider) (info : CORINFO_METHOD_INFO) (flags : Nat)
    (behavior : BackendCompileBehavior) (h : behavior.savedEarly = true) :
    countEvents isFinalizeRecordingEvent
        (compileMethod st comp info flags behavior).events = 0 ∧
    countEvents isFinalizeSaveEvent
        (compileMethod st comp info flags behavior).events = 0 ∧
    countEvents isDeleteEvent
        (compileMethod st comp info flags behavior).events = 1 := by
  rcases behavior with ⟨qs, se, oc⟩
  simp only at h
  subst h
  rcases oc with ⟨r, e, s⟩ | _ <;> cases hg : st.g_globalContext <;>
    simp [compileMethod, forcedQueries, globalContextEvents, hg, countEvents,
      countEvents_append, countEvents_map_query_finRec, countEvents_map_query_finSave,
      countEvents_map_query_delete, isFinalizeRecordingEvent, isFinalizeSaveEvent,
      isDeleteEvent]

theorem C10_early_save_skips_entire_finalize_witness :
    countEvents isFinalizeRecordingEvent
        (compileMethod sampleStateNoGC sampleProvider sampleInfo 4 earlyBehavior).events
          = 0 ∧
    countEvents isFinalizeSaveEvent
        (compileMethod sampleStateNoGC sampleProvider sampleInfo 4 earlyBehavior).events
          = 0 ∧
    countEvents isDeleteEvent
        (compileMethod sampleStateNoGC sampleProvider sampleInfo 4 earlyBehavior).events
          = 1 :=
  C10_early_save_skips_entire_finalize sampleStateNoGC sampleProvider sampleInfo 4
    earlyBehavior rfl

/-- C4: `finalizeAndCommitCollection` records the result and output into the
Capture Context, performs the two success-only captures if and only if the
result is `CORJIT_OK`, and writes the (single) finalized context to the
Output Sink; a non-success result is still persisted, without the
success-only captures. -/
theorem C4_finalize_records_and_persists (mc : MethodContext) (result : CorJitResult)
    (nativeEntry : Option Nat) (nativeSizeOfCode : Nat)
    (h1 : mc.allocMemCaptured = false) (h2 : mc.allocGCInfoCaptured = false) :
    (finalizeAndCommitCollection mc result nativeEntry nativeSizeOfCode).1.compileResultRec
        = some ⟨nativeEntry, nativeSizeOfCode, result⟩ ∧
    ((finalizeAndCommitCollection mc result nativeEntry nativeSizeOfCode).1.allocMemCaptured
        = true ↔ result = CorJitResult.CORJIT_OK) ∧
    ((finalizeAndCommitCollection mc result nativeEntry nativeSizeOfCode).1.allocGCInfoCaptured
        = true ↔ result = CorJitResult.CORJIT_OK) ∧
    persistedRecords (finalizeAndCommitCollection mc result nativeEntry nativeSizeOfCode).2
        = [(finalizeAndCommitCollection mc result nativeEntry nativeSizeOfCode).1] := by
  by_cases hr : result = CorJitResult.CORJIT_OK <;>
    simp [finalizeAndCommitCollection, hr, MethodContext.crRecCompileMethod,
      MethodContext.recAllocMemCapture, MethodContext.recAllocGCInfoCapture,
      persistedRecords, h1, h2]

theorem C4_finalize_records_and_persists_witness :
    (finalizeAndCommitCollection {} CorJitResult.CORJIT_OK (some 5) 9).1.compileResultRec
        = some ⟨some 5, 9, CorJitResult.CORJIT_OK⟩ ∧
    ((finalizeAndCommitCollection {} CorJitResult.CORJIT_OK (some 5) 9).1.allocMemCaptured
        = true ↔ CorJitResult.CORJIT_OK = CorJitResult.CORJIT_OK) ∧
    ((finalizeAndCommitCollection {} CorJitResult.CORJIT_OK (some 5) 9).1.allocGCInfoCaptured
        = true ↔ CorJitResult.CORJIT_OK = CorJitResult.CORJIT_OK) ∧
    persistedRecords (finalizeAndCommitCollection {} CorJitResult.CORJIT_OK (some 5) 9).2
        = [(finalizeAndCommitCollection {} CorJitResult.CORJIT_OK (some 5) 9).1] :=
  C4_finalize_records_and_persists {} CorJitResult.CORJIT_OK (some 5) 9 rfl rfl

/-- C5: When no early save happened, the single record persisted by the
fault barrier carries exactly the result code and output returned to the
caller; on a normal backend return the returned tuple is the backend's
`(result, entry, size)` (so for a success with entry E and size S the tuple
is `(CORJIT_OK, E, S)` and the persisted record shows the same), and on a
fault the returned (and recorded) result is the internal-error code with
empty output. -/
theorem C5_persisted_result_matches_returned (st : ShimState)
    (comp : ICorJitInfoProvider) (info : CORINFO_METHOD_INFO) (flags : Nat)
    (behavior : BackendCompileBehavior) (h : behavior.savedEarly = false) :
    persistedCompileResults (compileMethod st comp info flags behavior).events
        = [some ⟨(compileMethod st comp info flags behavior).nativeEntry,
                 (compileMethod st comp info flags behavior).nativeSizeOfCode,
                 (compileMethod st comp info flags behavior).result⟩] ∧
    (compileMethod st comp info flags behavior).result
        = (match behavior.outcome with
           | BackendOutcome.ret r _ _ => r
           | BackendOutcome.fault => CorJitResult.CORJIT_INTERNALERROR) ∧
    (compileMethod st comp info flags behavior).nativeEntry
        = (match behavior.outcome with
           | BackendOutcome.ret _ e _ => e
           | BackendOutcome.fault => none) ∧
    (compileMethod st comp info flags behavior).nativeSizeOfCode
        = (match behavior.outcome with
           | BackendOutcome.ret _ _ s => s
           | BackendOutcome.fault => 0) := by
  rcases behavior with ⟨qs, se, oc⟩
  simp only at h
  subst h
  rcases oc with ⟨r, e, s⟩ | _
  · by_cases hr : r = CorJitResult.CORJIT_OK <;> cases hg : st.g_globalContext <;>
      simp [compileMethod, finalizeAndCommitCollection, forcedQueries,
        globalContextEvents, hg, hr, persistedCompileResults,
        persistedCompileResults_append, persistedCompileResults_map_query,
        MethodContext.crRecCompileMethod, MethodContext.recAllocMemCapture,
        MethodContext.recAllocGCInfoCapture]
  · cases hg : st.g_globalContext <;>
      simp [compileMethod, finalizeAndCommitCollection, forcedQueries,
        globalContextEvents, hg, persistedCompileResults,
        persistedCompileResults_append, persistedCompileResults_map_query,
        MethodContext.crRecCompileMethod, MethodContext.recAllocMemCapture,
        MethodContext.recAllocGCInfoCapture]

theorem C5_persisted_result_matches_returned_witness :
    persistedCompileResults (compileMethod sampleState sampleProvider sampleInfo 6 okBehavior).events
        = [some ⟨(compileMethod sampleState sampleProvider sampleInfo 6 okBehavior).nativeEntry,
                 (compileMethod sampleState sampleProvider sampleInfo 6 okBehavior).nativeSizeOfCode,
                 (compileMethod sampleState sampleProvider sampleInfo 6 okBehavior).result⟩] ∧
    (compileMethod sampleState sampleProvider sampleInfo 6 okBehavior).result
        = (match okBehavior.outcome with
           | BackendOutcome.ret r _ _ => r
           | BackendOutcome.fault => CorJitResult.CORJIT_INTERNALERROR) ∧
    (compileMethod sampleState sampleProvider sampleInfo 6 okBehavior).nativeEntry
        = (match okBehavior.outcome with
           | BackendOutcome.ret _ e _ => e
           | BackendOutcome.fault => none) ∧
    (compileMethod sampleState sampleProvider sampleInfo 6 okBehavior).nativeSizeOfCode
        = (match okBehavior.outcome with
           | BackendOutcome.ret _ _ s => s
           | BackendOutcome.fault => 0) :=
  C5_persisted_result_matches_returned sampleState sampleProvider sampleInfo 6 okBehavior rfl

/-- C7 counterexample: on a concrete call whose global context is available,
the recording order claimed by the spec (global-context snapshot recorded
before the eager well-known queries are issued) is violated: the trace
contains query recordings before the global-context recording. -/
theorem C7_counterexample_queries_precede_global :
    ¬ globalContextRecordedBeforeQueries
        (compileMethod sampleState sampleProvider sampleInfo 2 okBehavior).events := by
  unfold globalContextRecordedBeforeQueries
  decide

/-- C7 (amended): the recording steps of `compileMethod` occur in this
order: process identity, then method descriptor / flags / target-platform
state, then the eager well-known reference queries, then — if available —
the global-context snapshot (recorded at most once), all before the backend
is invoked. -/
theorem C7_recording_order (st : ShimState) (comp : ICorJitInfoProvider)
    (info : CORINFO_METHOD_INFO) (flags : Nat) (behavior : BackendCompileBehavior) :
    (∃ rest : List Event,
      (compileMethod st comp info flags behavior).events =
        Event.evCreateMC ::
          Event.evRecProcessName st.processName ::
            Event.evRecMethodInputs info.ftn flags st.currentOs ::
              ((forcedQueries comp info).map Event.evQuery ++
                (globalContextEvents st.g_globalContext ++
                  Event.evBackendInvoked none 0 :: rest))) ∧
    countEvents isGlobalContextEvent
        (compileMethod st comp info flags behavior).events ≤ 1 := by
  constructor
  · rcases st with ⟨os, gctx, pname⟩
    rcases behavior with ⟨qs, se, oc⟩
    cases gctx <;> cases se <;> rcases oc with ⟨r, e, s⟩ | _ <;> exact ⟨_, rfl⟩
  · rw [compileMethod_globalCtx_count]
    cases st.g_globalContext <;> simp
